import Mathlib

/-!
Verification of the agent-handoff coordinator and the asset-generation
result parser of the Suna/GameByte frontend.

The embedding follows the TypeScript sources:

* `useAgentCall.handleAgentCall` (frontend/src/components/agents/agent-preview.tsx,
  hook part): the handoff operation over the hook state (`isLoading`, `error`),
  the page state (`agentRunId`, `selectedAgentId`, `messages`) and the three
  collaborators (stop-run, append-message, start-run), modelled as an explicit
  environment describing the outcome of each asynchronous call plus a trace of
  the collaborator calls actually issued.
* `handleSubmitMessage` option merging (same file, component part).
* `handleStopAgent` and `handleStreamStatusChange` (same file, component part).
* `parseToolResult` (AssetGenerationToolView.tsx).
-/

namespace Suna

/-- The `UnifiedMessage` record shape used by the frontend. -/
structure UnifiedMessage where
  message_id : String
  thread_id : String
  type : String
  is_llm_message : Bool
  content : String
  metadata : String
  created_at : String
  updated_at : String
deriving DecidableEq, Repr

/-- The `currentModelSettings` parameter of `useAgentCall`:
`{ model_name?, enable_thinking?, reasoning_effort? }`. -/
structure ModelSettings where
  model_name : Option String := none
  enable_thinking : Option Bool := none
  reasoning_effort : Option String := none
deriving DecidableEq, Repr

/-- The options object passed to `startAgentMutation` by `handleAgentCall`:
`{ agent_id: agentId, ...currentModelSettings }`. -/
structure AgentStartOptions where
  agent_id : String
  model_name : Option String := none
  enable_thinking : Option Bool := none
  reasoning_effort : Option String := none
deriving DecidableEq, Repr

/-- A call issued to one of the network collaborators
(stop-run, append-message, start-run). -/
inductive CollabCall where
  | stopRun (runId : String)
  | appendMessage (threadId : String) (message : String)
  | startRun (threadId : String) (options : AgentStartOptions)
deriving DecidableEq, Repr

/-- The hook-local state of `useAgentCall`. -/
structure HookState where
  isLoading : Bool
  error : Option String
deriving DecidableEq, Repr

/-- The page state the hook mutates through its callbacks
(`setAgentRunId`, `setSelectedAgentId`, `setMessages`). -/
structure PageState where
  agentRunId : Option String
  selectedAgentId : String
  messages : List UnifiedMessage
deriving DecidableEq, Repr

/-- Outcomes of the asynchronous collaborator calls, fixed ahead of the run:
whether `stopAgentMutation` rejects (and with what message), whether
`addUserMessageMutation` rejects, the result of `startAgentMutation`
(`Except.ok runId` or a rejection), and the clock value used for
`Date.now()` / `toISOString()`. -/
structure Env where
  stopFails : Bool
  stopErrorMsg : String
  appendFails : Bool
  appendErrorMsg : String
  startResult : Except String String
  now : String

/-- Result of one invocation of `handleAgentCall`: the final hook state, the
final page state, and the ordered trace of collaborator calls issued. -/
structure CallOutcome where
  hook : HookState
  page : PageState
  trace : List CollabCall
deriving DecidableEq, Repr

/-- The error message surfaced by the catch block:
`error.message || "Failed to switch to agent"`. -/
def surfacedError (e : String) : String :=
  if e = "" then "Failed to switch to agent" else e

/-- The optimistic handoff message constructed by `handleAgentCall`:
`{ message_id: handoff-Date.now(), thread_id, type: user, is_llm_message:
false, content: message, metadata, created_at/updated_at: now }`. -/
def handoffMessage (tid m now : String) : UnifiedMessage :=
  { message_id := "handoff-" ++ now
  , thread_id := tid
  , type := "user"
  , is_llm_message := false
  , content := m
  , metadata := "\x7b\x7d"
  , created_at := now
  , updated_at := now }

/-- Embedding of `useAgentCall.handleAgentCall(agentId, message?)`.

Control flow of the source: an early return with an error when `threadId` is
absent; `setIsLoading(true)`/`setError(null)`; inside `try`: stop the current
agent when `currentAgentRunId` is set and `currentAgentStatus === "running"`;
when a non-empty `message` is given, optimistically append the handoff
message and persist it; start the target agent with
`{ agent_id, ...currentModelSettings }`; on success set the run id and the
selected agent. Any rejection jumps to `catch`, which records the error; the
`finally` clears `isLoading`. JavaScript truthiness makes `if (message)`
false for the empty string. -/
def handleAgentCall (threadId : Option String) (currentAgentRunId : Option String)
    (currentAgentStatus : String) (currentModelSettings : ModelSettings)
    (hs : HookState) (ps : PageState) (env : Env)
    (agentId : String) (message : Option String) : CallOutcome :=
  match threadId with
  | none =>
      { hook := { isLoading := hs.isLoading
                , error := some "No thread ID available for agent call" }
      , page := ps
      , trace := [] }
  | some tid =>
      let stopCalls : List CollabCall :=
        match currentAgentRunId with
        | some rid => if currentAgentStatus = "running" then [CollabCall.stopRun rid] else []
        | none => []
      let stopAttempted : Bool :=
        currentAgentRunId.isSome && decide (currentAgentStatus = "running")
      if stopAttempted && env.stopFails then
        { hook := { isLoading := false, error := some (surfacedError env.stopErrorMsg) }
        , page := ps
        , trace := stopCalls }
      else
        let hasMsg : Bool :=
          match message with
          | some m => decide (m ≠ "")
          | none => false
        let ps1 : PageState :=
          match message with
          | some m =>
              if m = "" then ps
              else { ps with messages := ps.messages ++ [handoffMessage tid m env.now] }
          | none => ps
        let msgCalls : List CollabCall :=
          match message with
          | some m => if m = "" then [] else [CollabCall.appendMessage tid m]
          | none => []
        if hasMsg && env.appendFails then
          { hook := { isLoading := false, error := some (surfacedError env.appendErrorMsg) }
          , page := ps1
          , trace := stopCalls ++ msgCalls }
        else
          let agentOptions : AgentStartOptions :=
            { agent_id := agentId
            , model_name := currentModelSettings.model_name
            , enable_thinking := currentModelSettings.enable_thinking
            , reasoning_effort := currentModelSettings.reasoning_effort }
          let calls := stopCalls ++ msgCalls ++ [CollabCall.startRun tid agentOptions]
          match env.startResult with
          | Except.error e =>
              { hook := { isLoading := false, error := some (surfacedError e) }
              , page := ps1
              , trace := calls }
          | Except.ok runId =>
              { hook := { isLoading := false, error := none }
              , page := { ps1 with agentRunId := some runId, selectedAgentId := agentId }
              , trace := calls }

/-- Recognizer for start-run calls in a trace. -/
def isStartRun : CollabCall → Bool
  | CollabCall.startRun _ _ => true
  | _ => false

/-- Recognizer for stop-run calls in a trace. -/
def isStopRun : CollabCall → Bool
  | CollabCall.stopRun _ => true
  | _ => false

/-- Number of start-run calls issued in a trace. -/
def countStartRuns (t : List CollabCall) : Nat := (t.filter isStartRun).length

/-- Number of stop-run calls issued in a trace. -/
def countStopRuns (t : List CollabCall) : Nat := (t.filter isStopRun).length

/-- Modelled from the spec: the Run record of the external Run Controller
(section 3 of the design document), `{run_id, conversation_id (implicit),
agent_id, status}` with status one of starting, running, stopped, completed,
failed. The Run Controller itself is not part of src/. -/
structure Run where
  run_id : String
  agent_id : String
  status : String
deriving DecidableEq, Repr

/-- Modelled from the spec: a run is active when its status is `starting` or
`running`. -/
def isActiveRun (r : Run) : Bool := r.status = "starting" || r.status = "running"

/-- Modelled from the spec: the effect of one collaborator call on the Run
Controller state. A successful stop marks the named run stopped; a failed
stop leaves it untouched; a successful start creates a running run for the
requested agent with the returned run id; append-message does not touch runs. -/
def applyCollabCall (env : Env) (store : List Run) : CollabCall → List Run
  | CollabCall.stopRun rid =>
      if env.stopFails then store
      else store.map (fun r => if r.run_id = rid then { r with status := "stopped" } else r)
  | CollabCall.appendMessage _ _ => store
  | CollabCall.startRun _ opts =>
      match env.startResult with
      | Except.ok runId => store ++ [{ run_id := runId, agent_id := opts.agent_id, status := "running" }]
      | Except.error _ => store

/-- Modelled from the spec: the Run Controller state after a trace of
collaborator calls. -/
def applyTrace (env : Env) (store : List Run) (trace : List CollabCall) : List Run :=
  trace.foldl (applyCollabCall env) store

/-- The active runs of a Run Controller state. -/
def activeRuns (store : List Run) : List Run := store.filter isActiveRun

/-- The options argument of `handleSubmitMessage`:
`{ model_name?, enable_thinking?, reasoning_effort?, enable_context_manager? }`. -/
structure SubmitOptions where
  model_name : Option String := none
  enable_thinking : Option Bool := none
  reasoning_effort : Option String := none
  enable_context_manager : Option Bool := none
deriving DecidableEq, Repr

/-- The merged options object built by `handleSubmitMessage` and passed to
`startAgentMutation`. -/
structure FinalOptions where
  agent_id : String
  model_name : Option String
  enable_context_manager : Option Bool
  enable_thinking : Bool
  reasoning_effort : String
deriving DecidableEq, Repr

/-- Embedding of the `finalOptions` computation of `handleSubmitMessage`:
`{ agent_id, ...options, enable_thinking: options?.enable_thinking !==
undefined ? options.enable_thinking : thinkingEnabled, reasoning_effort:
options?.reasoning_effort || reasoningEffort }`. The `||` fallback means an
empty-string `reasoning_effort` override falls back to the component state. -/
def finalOptions (agent_id : String) (options : Option SubmitOptions)
    (thinkingEnabled : Bool) (reasoningEffort : String) : FinalOptions :=
  { agent_id := agent_id
  , model_name :=
      match options with
      | some o => o.model_name
      | none => none
  , enable_context_manager :=
      match options with
      | some o => o.enable_context_manager
      | none => none
  , enable_thinking :=
      match options with
      | some o =>
          match o.enable_thinking with
          | some b => b
          | none => thinkingEnabled
      | none => thinkingEnabled
  , reasoning_effort :=
      match options with
      | some o =>
          match o.reasoning_effort with
          | some r => if r = "" then reasoningEffort else r
          | none => reasoningEffort
      | none => reasoningEffort }

/-- The component state of `AgentPreview` read and written by
`handleStopAgent` and `handleStreamStatusChange`. -/
structure PreviewState where
  agentRunId : Option String
  agentStatus : String
deriving DecidableEq, Repr

/-- The terminal hook statuses of the `switch` in `handleStreamStatusChange`. -/
def terminalStatuses : List String :=
  ["idle", "completed", "stopped", "agent_not_running", "error", "failed"]

/-- Embedding of `handleStreamStatusChange`: terminal statuses set the agent
status to idle and clear the run id; `connecting` and `streaming` update the
agent status; any other status is ignored (no default case in the switch). -/
def handleStreamStatusChange (st : PreviewState) (hookStatus : String) : PreviewState :=
  if terminalStatuses.contains hookStatus then
    { st with agentStatus := "idle", agentRunId := none }
  else if hookStatus = "connecting" then
    { st with agentStatus := "connecting" }
  else if hookStatus = "streaming" then
    { st with agentStatus := "running" }
  else st

/-- Modelled from the spec: `useAgentStream.stopStreaming` is not in src/.
Per the design document the Stream Subscriber is cancelled synchronously by a
stop and the run status is forced to "stopped" locally, delivered to the
registered `onStatusChange` handler (`handleStreamStatusChange`). -/
def stopStreamingStatus : String := "stopped"

/-- Outcome of the `stopAgentMutation` call made by `handleStopAgent`. -/
structure StopEnv where
  stopFails : Bool

/-- Embedding of `handleStopAgent`: set the agent status to idle, await
`stopStreaming()` (which reports the terminal status to
`handleStreamStatusChange`, clearing the run id), then, when the captured
`agentRunId` was set, request the Run Controller to stop it, with any
rejection caught and only logged. The resulting state does not depend on
whether the stop call succeeds. -/
def handleStopAgent (st : PreviewState) (_env : StopEnv) : PreviewState × List CollabCall :=
  let st1 := { st with agentStatus := "idle" }
  let st2 := handleStreamStatusChange st1 stopStreamingStatus
  match st.agentRunId with
  | some rid => (st2, [CollabCall.stopRun rid])
  | none => (st2, [])

/-- List-of-characters test that `pat` occurs as a contiguous substring,
the semantics of JavaScript `String.prototype.includes`. -/
def hasSubstr (pat : List Char) : List Char → Bool
  | [] => pat.isEmpty
  | c :: rest => pat.isPrefixOf (c :: rest) || hasSubstr pat rest

/-- String form of `hasSubstr`, i.e. `s.includes(pat)`. -/
def strIncludes (s pat : String) : Bool := hasSubstr pat.data s.data

/-- Scanner for the greedy `[^\x29]+` part of the image-link regex: the run
of characters before the first closing parenthesis, plus the rest after it;
`none` when no closing parenthesis occurs. -/
def takeUntilCloseParen : List Char → Option (List Char × List Char)
  | [] => none
  | c :: rest =>
      if c = ')' then some ([], rest)
      else
        match takeUntilCloseParen rest with
        | some (run, rest') => some (c :: run, rest')
        | none => none

/-- Attempt to match the regex `\[View Image\]\((https?://[^\x29]+)\)` at the
head of the input, returning the captured URL and the remaining input. -/
def matchViewImageAt (s : List Char) : Option (String × List Char) :=
  let pre := "[View Image](".data
  if pre.isPrefixOf s then
    let s1 := s.drop pre.length
    if "https://".data.isPrefixOf s1 then
      match takeUntilCloseParen (s1.drop 8) with
      | some (run, rest) =>
          if run.isEmpty then none
          else some (⟨"https://".data ++ run⟩, rest)
      | none => none
    else if "http://".data.isPrefixOf s1 then
      match takeUntilCloseParen (s1.drop 7) with
      | some (run, rest) =>
          if run.isEmpty then none
          else some (⟨"http://".data ++ run⟩, rest)
      | none => none
    else none
  else none

/-- Fuel-bounded left-to-right scan for all non-overlapping matches of the
image-link regex, as performed by `contentStr.match(...g)` plus the per-match
URL extraction (which always succeeds on a full match). Fuel at least the
input length computes every match. -/
def scanViewImagesAux : Nat → List Char → List String
  | 0, _ => []
  | _ + 1, [] => []
  | n + 1, c :: rest =>
      match matchViewImageAt (c :: rest) with
      | some (url, after) => url :: scanViewImagesAux n after
      | none => scanViewImagesAux n rest

/-- All image URLs extracted from the tool content string. -/
def scanViewImages (s : List Char) : List String := scanViewImagesAux s.length s

/-- The `AssetResult` record produced by `parseToolResult`. -/
structure AssetResult where
  isEachlabsWorkflow : Bool
  isGoogleImagen : Bool
  isAsyncProcessing : Bool
  hasImages : Bool
  images : List String
  workflowDetails : Option String := none
  errorMessage : Option String := none
deriving DecidableEq, Repr

/-- Embedding of `AssetGenerationToolView.parseToolResult` on the string form
of the tool content (`!content` is true exactly for the empty string once the
content has been stringified). Branch order follows the source: falsy
content, then the error check (`includes("Error:") || includes("error")`),
then the Google Imagen detection (image links or the success markers), then
the Eachlabs workflow detection, then the default fallback. -/
def parseToolResult (content : String) : AssetResult :=
  if content = "" then
    { isEachlabsWorkflow := false, isGoogleImagen := false, isAsyncProcessing := false
    , hasImages := false, images := [] }
  else if strIncludes content "Error:" || strIncludes content "error" then
    { isEachlabsWorkflow := false, isGoogleImagen := false, isAsyncProcessing := false
    , hasImages := false, images := [], errorMessage := some content }
  else
    let imageMatches := scanViewImages content.data
    if !imageMatches.isEmpty || strIncludes content "Image Generated Successfully"
        || strIncludes content "Images Generated Successfully" then
      { isEachlabsWorkflow := false, isGoogleImagen := true, isAsyncProcessing := false
      , hasImages := !imageMatches.isEmpty, images := imageMatches }
    else if strIncludes content "Asset Generation Started"
        || strIncludes content "Workflow executed successfully" then
      { isEachlabsWorkflow := true, isGoogleImagen := false, isAsyncProcessing := true
      , hasImages := false, images := [], workflowDetails := some content }
    else
      { isEachlabsWorkflow := false, isGoogleImagen := false, isAsyncProcessing := false
      , hasImages := false, images := [] }

/-- C2 counterexample: with a thread present, an empty `target_agent_id` is
not rejected: the call completes without error and issues a start-run call
carrying the empty agent id, so the operation is neither an
`InvalidArgument` failure nor free of collaborator calls. -/
theorem handoff_empty_target_issues_start_call :
    (handleAgentCall (some "th1") none "idle" {} ⟨false, none⟩ ⟨none, "", []⟩
        ⟨false, "", false, "", Except.ok "R2", "t0"⟩ "" none).hook.error = none
    ∧ (handleAgentCall (some "th1") none "idle" {} ⟨false, none⟩ ⟨none, "", []⟩
        ⟨false, "", false, "", Except.ok "R2", "t0"⟩ "" none).trace
      = [CollabCall.startRun "th1" { agent_id := "" }] := by
  constructor <;> rfl

/-- C2 amended: `handleAgentCall` validates only the thread id. Without a
thread id it records an error, touches no page state and issues no
collaborator calls; with a thread id the target agent id is passed through
unvalidated (for any agent id, including the empty or whitespace-only one,
the start-run call is issued with exactly that id). -/
theorem handoff_validates_only_threadId
    (curRun : Option String) (curStatus : String) (cms : ModelSettings)
    (hs : HookState) (ps : PageState) (env : Env) (agentId : String)
    (message : Option String) (tid : String) :
    handleAgentCall none curRun curStatus cms hs ps env agentId message
      = { hook := { isLoading := hs.isLoading
                  , error := some "No thread ID available for agent call" }
        , page := ps, trace := [] }
    ∧ (handleAgentCall (some tid) none curStatus cms hs ps env agentId none).trace
      = [CollabCall.startRun tid
          { agent_id := agentId, model_name := cms.model_name
          , enable_thinking := cms.enable_thinking
          , reasoning_effort := cms.reasoning_effort }] := by
  refine ⟨rfl, ?_⟩
  simp only [handleAgentCall, Option.isSome_none, Bool.false_and, Bool.false_eq_true,
    if_false, if_neg]
  cases h : env.startResult <;> simp [h]

/-- C3 counterexample: when stopping the running agent rejects, the handoff
is aborted inside the catch block: the error is surfaced and the start-run
call is never issued, contradicting the claim that the handoff proceeds. -/
theorem stop_failure_aborts_handoff_cex :
    (handleAgentCall (some "th1") (some "R1") "running" {} ⟨false, none⟩
        ⟨some "R1", "writer", []⟩ ⟨true, "network down", false, "", Except.ok "R2", "t0"⟩
        "artist" none).hook.error = some "network down"
    ∧ (handleAgentCall (some "th1") (some "R1") "running" {} ⟨false, none⟩
        ⟨some "R1", "writer", []⟩ ⟨true, "network down", false, "", Except.ok "R2", "t0"⟩
        "artist" none).trace = [CollabCall.stopRun "R1"] := by
  constructor <;> rfl

/-- C3 amended: a rejection of the stop-run call aborts the whole handoff:
the surfaced error is the stop error, no state beyond the error is changed,
and the trace consists of the stop-run call alone, so the new run is never
attempted. -/
theorem stop_failure_aborts_handoff
    (tid rid : String) (cms : ModelSettings) (hs : HookState) (ps : PageState)
    (env : Env) (agentId : String) (message : Option String)
    (h : env.stopFails = true) :
    handleAgentCall (some tid) (some rid) "running" cms hs ps env agentId message
      = { hook := { isLoading := false, error := some (surfacedError env.stopErrorMsg) }
        , page := ps, trace := [CollabCall.stopRun rid] } := by
  simp [handleAgentCall, h]

/-- C3 amended witness at a concrete input. -/
theorem stop_failure_aborts_handoff_witness :
    handleAgentCall (some "th1") (some "R1") "running" {} ⟨false, none⟩
        ⟨some "R1", "writer", []⟩ ⟨true, "network down", false, "", Except.ok "R2", "t0"⟩
        "artist" none
      = { hook := { isLoading := false, error := some (surfacedError "network down") }
        , page := ⟨some "R1", "writer", []⟩, trace := [CollabCall.stopRun "R1"] } :=
  stop_failure_aborts_handoff "th1" "R1" {} ⟨false, none⟩ ⟨some "R1", "writer", []⟩
    ⟨true, "network down", false, "", Except.ok "R2", "t0"⟩ "artist" none rfl

/-- C5 counterexample: when persisting the handoff message rejects, the
optimistic message does remain and the error is surfaced, but the handoff
does not proceed: no start-run call is issued, contradicting the claim. -/
theorem persistence_failure_aborts_handoff_cex :
    (handleAgentCall (some "th1") (some "R1") "running" {} ⟨false, none⟩
        ⟨some "R1", "writer", []⟩ ⟨false, "", true, "db down", Except.ok "R2", "t0"⟩
        "artist" (some "hello")).page.messages = [handoffMessage "th1" "hello" "t0"]
    ∧ (handleAgentCall (some "th1") (some "R1") "running" {} ⟨false, none⟩
        ⟨some "R1", "writer", []⟩ ⟨false, "", true, "db down", Except.ok "R2", "t0"⟩
        "artist" (some "hello")).trace
      = [CollabCall.stopRun "R1", CollabCall.appendMessage "th1" "hello"] := by
  constructor <;> rfl

/-- C5 amended: when the append-message call rejects, the optimistically
appended handoff message remains in the local sequence and the error is
surfaced, but the handoff is aborted: no start-run call is issued. -/
theorem persistence_failure_keeps_optimistic_message
    (tid m : String) (curRun : Option String) (curStatus : String)
    (cms : ModelSettings) (hs : HookState) (ps : PageState) (env : Env)
    (agentId : String) (hm : m ≠ "") (hstop : env.stopFails = false)
    (happ : env.appendFails = true) :
    (handleAgentCall (some tid) curRun curStatus cms hs ps env agentId (some m)).page.messages
      = ps.messages ++ [handoffMessage tid m env.now]
    ∧ (handleAgentCall (some tid) curRun curStatus cms hs ps env agentId (some m)).hook.error
      = some (surfacedError env.appendErrorMsg)
    ∧ countStartRuns
        (handleAgentCall (some tid) curRun curStatus cms hs ps env agentId (some m)).trace = 0 := by
  cases curRun with
  | none =>
      simp [handleAgentCall, hstop, happ, hm, countStartRuns, isStartRun]
  | some rid =>
      by_cases hcs : curStatus = "running" <;>
        simp [handleAgentCall, hstop, happ, hm, hcs, countStartRuns, isStartRun,
          List.filter_append]

/-- C5 amended witness at a concrete input. -/
theorem persistence_failure_keeps_optimistic_message_witness :
    (handleAgentCall (some "th1") (some "R1") "running" {} ⟨false, none⟩
        ⟨some "R1", "writer", []⟩ ⟨false, "", true, "db down", Except.ok "R2", "t0"⟩
        "artist" (some "hello")).page.messages
      = [] ++ [handoffMessage "th1" "hello" "t0"]
    ∧ (handleAgentCall (some "th1") (some "R1") "running" {} ⟨false, none⟩
        ⟨some "R1", "writer", []⟩ ⟨false, "", true, "db down", Except.ok "R2", "t0"⟩
        "artist" (some "hello")).hook.error = some (surfacedError "db down")
    ∧ countStartRuns
        (handleAgentCall (some "th1") (some "R1") "running" {} ⟨false, none⟩
          ⟨some "R1", "writer", []⟩ ⟨false, "", true, "db down", Except.ok "R2", "t0"⟩
          "artist" (some "hello")).trace = 0 :=
  persistence_failure_keeps_optimistic_message "th1" "hello" (some "R1") "running" {}
    ⟨false, none⟩ ⟨some "R1", "writer", []⟩
    ⟨false, "", true, "db down", Except.ok "R2", "t0"⟩ "artist" (by decide) rfl rfl

/-- C6 counterexample: when the start-run call rejects after a handoff from a
running agent, `agentRunId` is not cleared: it still holds the previous run
id rather than being left unset. -/
theorem run_start_failure_keeps_old_runId_cex :
    (handleAgentCall (some "th1") (some "R1") "running" {} ⟨false, none⟩
        ⟨some "R1", "writer", []⟩ ⟨false, "", false, "", Except.error "boom", "t0"⟩
        "artist" none).page.agentRunId = some "R1"
    ∧ (handleAgentCall (some "th1") (some "R1") "running" {} ⟨false, none⟩
        ⟨some "R1", "writer", []⟩ ⟨false, "", false, "", Except.error "boom", "t0"⟩
        "artist" none).hook.error = some "boom" := by
  constructor <;> rfl

/-- C6 amended: when the start-run call rejects, the error is surfaced to the
caller, no automatic retry happens (exactly one start-run call in the trace),
and `agentRunId` and `selectedAgentId` are left unchanged — in particular
`agentRunId` keeps its previous value instead of being cleared. -/
theorem run_start_failure_surfaces_error_no_retry
    (tid e : String) (curRun : Option String) (curStatus : String)
    (cms : ModelSettings) (hs : HookState) (ps : PageState) (env : Env)
    (agentId : String) (message : Option String)
    (hstart : env.startResult = Except.error e) (hstop : env.stopFails = false)
    (happ : env.appendFails = false) :
    (handleAgentCall (some tid) curRun curStatus cms hs ps env agentId message).hook.error
      = some (surfacedError e)
    ∧ (handleAgentCall (some tid) curRun curStatus cms hs ps env agentId message).page.agentRunId
      = ps.agentRunId
    ∧ (handleAgentCall (some tid) curRun curStatus cms hs ps env agentId message).page.selectedAgentId
      = ps.selectedAgentId
    ∧ countStartRuns
        (handleAgentCall (some tid) curRun curStatus cms hs ps env agentId message).trace = 1 := by
  cases curRun with
  | none =>
      cases message with
      | none =>
          simp [handleAgentCall, hstop, happ, hstart, countStartRuns, isStartRun]
      | some m =>
          by_cases hm : m = "" <;>
            simp [handleAgentCall, hstop, happ, hstart, hm, countStartRuns, isStartRun,
              List.filter_append]
  | some rid =>
      by_cases hcs : curStatus = "running" <;>
      cases message with
      | none =>
          simp [handleAgentCall, hstop, happ, hstart, hcs, countStartRuns, isStartRun,
            List.filter_append]
      | some m =>
          by_cases hm : m = "" <;>
            simp [handleAgentCall, hstop, happ, hstart, hcs, hm, countStartRuns, isStartRun,
              List.filter_append]

/-- C6 amended witness at a concrete input. -/
theorem run_start_failure_surfaces_error_no_retry_witness :
    (handleAgentCall (some "th1") (some "R1") "running" {} ⟨false, none⟩
        ⟨some "R1", "writer", []⟩ ⟨false, "", false, "", Except.error "boom", "t0"⟩
        "artist" none).hook.error = some (surfacedError "boom")
    ∧ (handleAgentCall (some "th1") (some "R1") "running" {} ⟨false, none⟩
        ⟨some "R1", "writer", []⟩ ⟨false, "", false, "", Except.error "boom", "t0"⟩
        "artist" none).page.agentRunId = (⟨some "R1", "writer", []⟩ : PageState).agentRunId
    ∧ (handleAgentCall (some "th1") (some "R1") "running" {} ⟨false, none⟩
        ⟨some "R1", "writer", []⟩ ⟨false, "", false, "", Except.error "boom", "t0"⟩
        "artist" none).page.selectedAgentId = (⟨some "R1", "writer", []⟩ : PageState).selectedAgentId
    ∧ countStartRuns
        (handleAgentCall (some "th1") (some "R1") "running" {} ⟨false, none⟩
          ⟨some "R1", "writer", []⟩ ⟨false, "", false, "", Except.error "boom", "t0"⟩
          "artist" none).trace = 1 :=
  run_start_failure_surfaces_error_no_retry "th1" "boom" (some "R1") "running" {}
    ⟨false, none⟩ ⟨some "R1", "writer", []⟩
    ⟨false, "", false, "", Except.error "boom", "t0"⟩ "artist" none rfl rfl rfl

/-- C9 counterexample: a handoff invoked while `isLoading` is already true
(a first handoff still in flight) is not rejected: it completes without any
error and issues its start-run call, so there is no `HandoffInProgress`
rejection. -/
theorem second_handoff_not_rejected_cex :
    (handleAgentCall (some "th1") (some "R1") "running" {} ⟨true, none⟩
        ⟨some "R1", "writer", []⟩ ⟨false, "", false, "", Except.ok "R2", "t0"⟩
        "artist" none).hook.error = none
    ∧ countStartRuns
        (handleAgentCall (some "th1") (some "R1") "running" {} ⟨true, none⟩
          ⟨some "R1", "writer", []⟩ ⟨false, "", false, "", Except.ok "R2", "t0"⟩
          "artist" none).trace = 1 := by
  constructor <;> rfl

/-- C9 amended: the hook exposes `isLoading` but never consults it: once a
thread id is present, the outcome of `handleAgentCall` is completely
independent of the hook state, so an overlapping second handoff proceeds
exactly as a first one would and no `HandoffInProgress` rejection exists. -/
theorem handoff_ignores_isLoading
    (tid : String) (curRun : Option String) (curStatus : String)
    (cms : ModelSettings) (hs1 hs2 : HookState) (ps : PageState) (env : Env)
    (agentId : String) (message : Option String) :
    handleAgentCall (some tid) curRun curStatus cms hs1 ps env agentId message
      = handleAgentCall (some tid) curRun curStatus cms hs2 ps env agentId message := rfl

/-- C7 counterexample: a handoff requested while the active run has status
"starting" issues no stop-run call at all (the code stops only on the exact
status "running"), yet still issues the start-run call and succeeds. -/
theorem no_stop_for_starting_run_cex :
    countStopRuns
        (handleAgentCall (some "th1") (some "R1") "starting" {} ⟨false, none⟩
          ⟨some "R1", "writer", []⟩ ⟨false, "", false, "", Except.ok "R2", "t0"⟩
          "artist" none).trace = 0
    ∧ countStartRuns
        (handleAgentCall (some "th1") (some "R1") "starting" {} ⟨false, none⟩
          ⟨some "R1", "writer", []⟩ ⟨false, "", false, "", Except.ok "R2", "t0"⟩
          "artist" none).trace = 1
    ∧ (handleAgentCall (some "th1") (some "R1") "starting" {} ⟨false, none⟩
        ⟨some "R1", "writer", []⟩ ⟨false, "", false, "", Except.ok "R2", "t0"⟩
        "artist" none).hook.error = none := by
  refine ⟨rfl, rfl, rfl⟩

/-- C7 amended: only when the observed status of the active run is exactly
"running" is the stop-run call issued, and then it is the first collaborator
call of the trace, before any start-run call; when no collaborator rejects,
exactly one start-run call follows it. -/
theorem stop_precedes_start_when_running
    (tid rid : String) (cms : ModelSettings) (hs : HookState) (ps : PageState)
    (env : Env) (agentId : String) (message : Option String) :
    (handleAgentCall (some tid) (some rid) "running" cms hs ps env agentId message).trace.head?
      = some (CollabCall.stopRun rid)
    ∧ (env.stopFails = false → env.appendFails = false →
        countStartRuns
          (handleAgentCall (some tid) (some rid) "running" cms hs ps env agentId message).trace
            = 1) := by
  constructor
  · by_cases hsf : env.stopFails
    · simp [handleAgentCall, hsf]
    · cases message with
      | none =>
          simp [handleAgentCall, hsf]
          cases h : env.startResult <;> simp
      | some m =>
          by_cases hm : m = "" <;> by_cases haf : env.appendFails <;>
            simp [handleAgentCall, hsf, hm, haf] <;>
          cases h : env.startResult <;> simp
  · intro hsf haf
    cases message with
    | none =>
        simp [handleAgentCall, hsf, haf, countStartRuns, isStartRun, List.filter_append]
        cases h : env.startResult <;> simp [isStartRun]
    | some m =>
        by_cases hm : m = "" <;>
          simp [handleAgentCall, hsf, haf, hm, countStartRuns, isStartRun, List.filter_append] <;>
        cases h : env.startResult <;> simp [isStartRun]

/-- C7 amended witness at a concrete input. -/
theorem stop_precedes_start_when_running_witness :
    (handleAgentCall (some "th1") (some "R1") "running" {} ⟨false, none⟩
        ⟨some "R1", "writer", []⟩ ⟨false, "", false, "", Except.ok "R2", "t0"⟩
        "artist" none).trace.head? = some (CollabCall.stopRun "R1")
    ∧ countStartRuns
        (handleAgentCall (some "th1") (some "R1") "running" {} ⟨false, none⟩
          ⟨some "R1", "writer", []⟩ ⟨false, "", false, "", Except.ok "R2", "t0"⟩
          "artist" none).trace = 1 := by
  have h := stop_precedes_start_when_running "th1" "R1" {} ⟨false, none⟩
    ⟨some "R1", "writer", []⟩ ⟨false, "", false, "", Except.ok "R2", "t0"⟩ "artist" none
  exact ⟨h.1, h.2 rfl rfl⟩

lemma activeRuns_append (s t : List Run) :
    activeRuns (s ++ t) = activeRuns s ++ activeRuns t := by
  simp [activeRuns, List.filter_append]

lemma activeRuns_after_stopAll (store : List Run) (rid : String)
    (h : ∀ r ∈ store, isActiveRun r = true → r.run_id = rid) :
    activeRuns (store.map
      (fun r => if r.run_id = rid then { r with status := "stopped" } else r)) = [] := by
  rw [activeRuns, List.filter_eq_nil_iff]
  intro a ha
  rcases List.mem_map.mp ha with ⟨r, hr, rfl⟩
  by_cases hid : r.run_id = rid
  · simp [hid, isActiveRun]
  · have hact : isActiveRun r = false := by
      by_contra hx
      exact hid (h r hr (by simpa using hx))
    simp only [hid, if_false]
    simp [hact]

/-- C1 counterexample: a handoff requested while the active run is observed
in status "starting" completes successfully (no error, new run id and agent
recorded) yet leaves two simultaneously active runs on the Run Controller,
because the stop is only issued for the exact status "running". -/
theorem handoff_from_starting_run_two_active_cex :
    (handleAgentCall (some "th1") (some "R1") "starting" {} ⟨false, none⟩
        ⟨some "R1", "writer", []⟩ ⟨false, "", false, "", Except.ok "R2", "t0"⟩
        "artist" none).hook.error = none
    ∧ (activeRuns (applyTrace ⟨false, "", false, "", Except.ok "R2", "t0"⟩
        [⟨"R1", "writer", "starting"⟩]
        (handleAgentCall (some "th1") (some "R1") "starting" {} ⟨false, none⟩
          ⟨some "R1", "writer", []⟩ ⟨false, "", false, "", Except.ok "R2", "t0"⟩
          "artist" none).trace)).length = 2 := by
  constructor <;> rfl

/-- C1 amended: every successful handoff records the returned run id in
`agentRunId` and the requested target agent in `selectedAgentId`, and clears
the error; the at-most-one-active-run invariant additionally holds whenever
the old run was observed in status "running" (so its stop was actually
issued) and it was the only active run beforehand — after the handoff the
single active run is the new run of the target agent. A handoff from a run
observed in status "starting" issues no stop and can leave two active runs. -/
theorem handoff_success_sets_target_run
    (tid : String) (curRun : Option String) (curStatus : String)
    (cms : ModelSettings) (hs : HookState) (ps : PageState) (env : Env)
    (agentId runId : String) (message : Option String) (store : List Run) (rid : String)
    (hstart : env.startResult = Except.ok runId)
    (hstop : env.stopFails = false) (happ : env.appendFails = false) :
    (handleAgentCall (some tid) curRun curStatus cms hs ps env agentId message).hook.error = none
    ∧ (handleAgentCall (some tid) curRun curStatus cms hs ps env agentId message).page.agentRunId
      = some runId
    ∧ (handleAgentCall (some tid) curRun curStatus cms hs ps env agentId message).page.selectedAgentId
      = agentId
    ∧ (curRun = some rid → curStatus = "running" →
        (∀ r ∈ store, isActiveRun r = true → r.run_id = rid) →
        activeRuns (applyTrace env store
          (handleAgentCall (some tid) curRun curStatus cms hs ps env agentId message).trace)
          = [{ run_id := runId, agent_id := agentId, status := "running" }]) := by
  cases curRun with
  | none =>
      refine ⟨?_, ?_, ?_, ?_⟩
      · cases message with
        | none => simp [handleAgentCall, hstop, happ, hstart]
        | some m =>
            by_cases hm : m = "" <;> simp [handleAgentCall, hstop, happ, hstart, hm]
      · cases message with
        | none => simp [handleAgentCall, hstop, happ, hstart]
        | some m =>
            by_cases hm : m = "" <;> simp [handleAgentCall, hstop, happ, hstart, hm]
      · cases message with
        | none => simp [handleAgentCall, hstop, happ, hstart]
        | some m =>
            by_cases hm : m = "" <;> simp [handleAgentCall, hstop, happ, hstart, hm]
      · intro hcr
        exact absurd hcr (by simp)
  | some rid' =>
      by_cases hcs : curStatus = "running"
      · refine ⟨?_, ?_, ?_, ?_⟩
        · cases message with
          | none => simp [handleAgentCall, hstop, happ, hstart, hcs]
          | some m =>
              by_cases hm : m = "" <;> simp [handleAgentCall, hstop, happ, hstart, hcs, hm]
        · cases message with
          | none => simp [handleAgentCall, hstop, happ, hstart, hcs]
          | some m =>
              by_cases hm : m = "" <;> simp [handleAgentCall, hstop, happ, hstart, hcs, hm]
        · cases message with
          | none => simp [handleAgentCall, hstop, happ, hstart, hcs]
          | some m =>
              by_cases hm : m = "" <;> simp [handleAgentCall, hstop, happ, hstart, hcs, hm]
        · intro hcr _ hact
          have hrr : rid' = rid := by injection hcr
          subst hrr
          cases message with
          | none =>
              have htr :
                  (handleAgentCall (some tid) (some rid') curStatus cms hs ps env agentId
                    none).trace
                    = [CollabCall.stopRun rid',
                       CollabCall.startRun tid
                        { agent_id := agentId, model_name := cms.model_name
                        , enable_thinking := cms.enable_thinking
                        , reasoning_effort := cms.reasoning_effort }] := by
                simp [handleAgentCall, hstop, happ, hstart, hcs]
              rw [htr]
              simp only [applyTrace, List.foldl_cons, List.foldl_nil, applyCollabCall,
                hstop, hstart, Bool.false_eq_true, if_false]
              rw [activeRuns_append, activeRuns_after_stopAll store rid' hact]
              simp [activeRuns, isActiveRun]
          | some m =>
              by_cases hm : m = ""
              · have htr :
                    (handleAgentCall (some tid) (some rid') curStatus cms hs ps env agentId
                      (some m)).trace
                      = [CollabCall.stopRun rid',
                         CollabCall.startRun tid
                          { agent_id := agentId, model_name := cms.model_name
                          , enable_thinking := cms.enable_thinking
                          , reasoning_effort := cms.reasoning_effort }] := by
                  simp [handleAgentCall, hstop, happ, hstart, hcs, hm]
                rw [htr]
                simp only [applyTrace, List.foldl_cons, List.foldl_nil, applyCollabCall,
                  hstop, hstart, Bool.false_eq_true, if_false]
                rw [activeRuns_append, activeRuns_after_stopAll store rid' hact]
                simp [activeRuns, isActiveRun]
              · have htr :
                    (handleAgentCall (some tid) (some rid') curStatus cms hs ps env agentId
                      (some m)).trace
                      = [CollabCall.stopRun rid', CollabCall.appendMessage tid m,
                         CollabCall.startRun tid
                          { agent_id := agentId, model_name := cms.model_name
                          , enable_thinking := cms.enable_thinking
                          , reasoning_effort := cms.reasoning_effort }] := by
                  simp [handleAgentCall, hstop, happ, hstart, hcs, hm]
                rw [htr]
                simp only [applyTrace, List.foldl_cons, List.foldl_nil, applyCollabCall,
                  hstop, hstart, Bool.false_eq_true, if_false]
                rw [activeRuns_append, activeRuns_after_stopAll store rid' hact]
                simp [activeRuns, isActiveRun]
      · refine ⟨?_, ?_, ?_, ?_⟩
        · cases message with
          | none => simp [handleAgentCall, hstop, happ, hstart, hcs]
          | some m =>
              by_cases hm : m = "" <;> simp [handleAgentCall, hstop, happ, hstart, hcs, hm]
        · cases message with
          | none => simp [handleAgentCall, hstop, happ, hstart, hcs]
          | some m =>
              by_cases hm : m = "" <;> simp [handleAgentCall, hstop, happ, hstart, hcs, hm]
        · cases message with
          | none => simp [handleAgentCall, hstop, happ, hstart, hcs]
          | some m =>
              by_cases hm : m = "" <;> simp [handleAgentCall, hstop, happ, hstart, hcs, hm]
        · intro hcr hrun
          have hrr : rid' = rid := by injection hcr
          exact absurd hrun hcs

/-- C1 amended witness at a concrete input. -/
theorem handoff_success_sets_target_run_witness :
    (handleAgentCall (some "th1") (some "R1") "running" {} ⟨false, none⟩
        ⟨some "R1", "writer", []⟩ ⟨false, "", false, "", Except.ok "R2", "t0"⟩
        "artist" none).page.agentRunId = some "R2"
    ∧ activeRuns (applyTrace ⟨false, "", false, "", Except.ok "R2", "t0"⟩
        [⟨"R1", "writer", "running"⟩]
        (handleAgentCall (some "th1") (some "R1") "running" {} ⟨false, none⟩
          ⟨some "R1", "writer", []⟩ ⟨false, "", false, "", Except.ok "R2", "t0"⟩
          "artist" none).trace)
      = [{ run_id := "R2", agent_id := "artist", status := "running" }] := by
  have h := handoff_success_sets_target_run "th1" (some "R1") "running" {} ⟨false, none⟩
    ⟨some "R1", "writer", []⟩ ⟨false, "", false, "", Except.ok "R2", "t0"⟩
    "artist" "R2" none [⟨"R1", "writer", "running"⟩] "R1" rfl rfl rfl
  exact ⟨h.2.1, h.2.2.2 rfl rfl (by decide)⟩

/-- C4 counterexample: an explicitly given empty-string `reasoning_effort`
override is not honored by `handleSubmitMessage`: the `||` fallback replaces
it with the component's current value. -/
theorem empty_reasoning_effort_override_ignored_cex :
    (finalOptions "agent-A"
        (some { model_name := none, enable_thinking := none
              , reasoning_effort := some "", enable_context_manager := none })
        false "high").reasoning_effort = "high"
    ∧ ("high" : String) ≠ "" := by
  exact ⟨rfl, by decide⟩

/-- C4 amended: a handoff that reaches the start-run call always carries the
coordinator's current generation settings (`model_name`, `enable_thinking`,
`reasoning_effort`) in the start options — in particular `enable_thinking =
true` and `reasoning_effort = "high"` survive a handoff with no explicit
options; and in `handleSubmitMessage` an explicit per-call override is
honored over the component state except that an empty-string
`reasoning_effort` override falls back to the component value. -/
theorem settings_preserved_across_handoff
    (tid : String) (curRun : Option String) (curStatus : String)
    (cms : ModelSettings) (hs : HookState) (ps : PageState) (env : Env)
    (agentId runId : String) (message : Option String)
    (aid : String) (o : SubmitOptions) (te : Bool) (re : String) (b : Bool) (r : String)
    (hstart : env.startResult = Except.ok runId)
    (hstop : env.stopFails = false) (happ : env.appendFails = false) :
    (handleAgentCall (some tid) curRun curStatus cms hs ps env agentId message).trace.getLast?
      = some (CollabCall.startRun tid
          { agent_id := agentId, model_name := cms.model_name
          , enable_thinking := cms.enable_thinking
          , reasoning_effort := cms.reasoning_effort })
    ∧ (o.enable_thinking = some b → (finalOptions aid (some o) te re).enable_thinking = b)
    ∧ (o.enable_thinking = none → (finalOptions aid (some o) te re).enable_thinking = te)
    ∧ (o.reasoning_effort = some r → r ≠ "" →
        (finalOptions aid (some o) te re).reasoning_effort = r)
    ∧ (o.reasoning_effort = none → (finalOptions aid (some o) te re).reasoning_effort = re) := by
  refine ⟨?_, ?_, ?_, ?_, ?_⟩
  · have htr :
        (handleAgentCall (some tid) curRun curStatus cms hs ps env agentId message).trace
          = ((match curRun with
              | some rid => if curStatus = "running" then [CollabCall.stopRun rid] else []
              | none => ([] : List CollabCall)) ++
            (match message with
              | some m => if m = "" then [] else [CollabCall.appendMessage tid m]
              | none => ([] : List CollabCall))) ++
            [CollabCall.startRun tid
              { agent_id := agentId, model_name := cms.model_name
              , enable_thinking := cms.enable_thinking
              , reasoning_effort := cms.reasoning_effort }] := by
      cases curRun with
      | none =>
          cases message with
          | none => simp [handleAgentCall, hstop, happ, hstart]
          | some m =>
              by_cases hm : m = "" <;> simp [handleAgentCall, hstop, happ, hstart, hm]
      | some rid =>
          by_cases hcs : curStatus = "running" <;>
          cases message with
          | none => simp [handleAgentCall, hstop, happ, hstart, hcs]
          | some m =>
              by_cases hm : m = "" <;> simp [handleAgentCall, hstop, happ, hstart, hcs, hm]
    rw [htr, List.getLast?_append]
    rfl
  · intro hb
    simp [finalOptions, hb]
  · intro hb
    simp [finalOptions, hb]
  · intro hr hne
    simp [finalOptions, hr, hne]
  · intro hr
    simp [finalOptions, hr]

/-- C4 amended witness at a concrete input (the settings round-trip of the
spec: thinking enabled with high reasoning effort, handoff with no explicit
options). -/
theorem settings_preserved_across_handoff_witness :
    (handleAgentCall (some "th1") (some "R1") "running"
        { model_name := none, enable_thinking := some true, reasoning_effort := some "high" }
        ⟨false, none⟩ ⟨some "R1", "writer", []⟩
        ⟨false, "", false, "", Except.ok "R2", "t0"⟩ "agent-B" none).trace.getLast?
      = some (CollabCall.startRun "th1"
          { agent_id := "agent-B", model_name := none
          , enable_thinking := some true, reasoning_effort := some "high" })
    ∧ (finalOptions "agent-B"
        (some { model_name := none, enable_thinking := some false
              , reasoning_effort := some "medium", enable_context_manager := none })
        true "high").reasoning_effort = "medium" := by
  have h := settings_preserved_across_handoff "th1" (some "R1") "running"
    { model_name := none, enable_thinking := some true, reasoning_effort := some "high" }
    ⟨false, none⟩ ⟨some "R1", "writer", []⟩
    ⟨false, "", false, "", Except.ok "R2", "t0"⟩ "agent-B" "R2" none
    "agent-B" { model_name := none, enable_thinking := some false
              , reasoning_effort := some "medium", enable_context_manager := none }
    true "high" false "medium" rfl rfl rfl
  exact ⟨h.1, h.2.2.2.1 rfl (by decide)⟩

/-- C8: `handleStopAgent` is idempotent and never surfaces an error: it
always leaves the agent status idle and the run id cleared, its result does
not depend on whether the stop-run call succeeds, a second invocation is a
no-op issuing no collaborator calls, with no active run it issues no
collaborator calls, and with an active run it issues exactly the stop-run
call for that run. -/
theorem stop_idempotent_never_fails
    (st : PreviewState) (env1 env2 : StopEnv) :
    (handleStopAgent st env1).1.agentRunId = none
    ∧ (handleStopAgent st env1).1.agentStatus = "idle"
    ∧ handleStopAgent (handleStopAgent st env1).1 env2 = ((handleStopAgent st env1).1, [])
    ∧ handleStopAgent st env1 = handleStopAgent st env2
    ∧ (st.agentRunId = none → (handleStopAgent st env1).2 = [])
    ∧ (∀ rid, st.agentRunId = some rid →
        (handleStopAgent st env1).2 = [CollabCall.stopRun rid]) := by
  cases st with
  | mk runId status =>
      cases runId <;>
        simp [handleStopAgent, handleStreamStatusChange, stopStreamingStatus,
          terminalStatuses]

/-- C8 witness at a concrete input: stopping twice from a running state. -/
theorem stop_idempotent_never_fails_witness :
    (handleStopAgent ⟨some "R1", "running"⟩ ⟨true⟩).1.agentRunId = none
    ∧ handleStopAgent ((handleStopAgent ⟨some "R1", "running"⟩ ⟨true⟩).1) ⟨false⟩
      = ((handleStopAgent ⟨some "R1", "running"⟩ ⟨true⟩).1, [])
    ∧ (handleStopAgent ⟨some "R1", "running"⟩ ⟨true⟩).2 = [CollabCall.stopRun "R1"] := by
  have h := stop_idempotent_never_fails ⟨some "R1", "running"⟩ ⟨true⟩ ⟨false⟩
  exact ⟨h.1, h.2.2.1, h.2.2.2.2.2 "R1" rfl⟩

/-- C10: in `parseToolResult` error detection takes precedence over all
success detection: any non-empty content containing the substring "Error:"
or "error" anywhere is classified as a failure — `errorMessage` is the whole
content, `hasImages` is false and `images` is empty — regardless of image
links or success markers also present in the content. -/
theorem parseToolResult_error_precedence
    (s : String) (hne : s ≠ "")
    (herr : strIncludes s "Error:" = true ∨ strIncludes s "error" = true) :
    parseToolResult s
      = { isEachlabsWorkflow := false, isGoogleImagen := false
        , isAsyncProcessing := false, hasImages := false, images := []
        , errorMessage := some s } := by
  have hcond : (strIncludes s "Error:" || strIncludes s "error") = true := by
    rcases herr with h | h <;> simp [h]
  simp [parseToolResult, hne, hcond]

/-- C10 witness: content that carries an image link and both success markers
but also the substring "Error:" is still classified as a failure. -/
theorem parseToolResult_error_precedence_witness :
    parseToolResult "Error: boom [View Image](https://a/b.png) Image Generated Successfully"
      = { isEachlabsWorkflow := false, isGoogleImagen := false
        , isAsyncProcessing := false, hasImages := false, images := []
        , errorMessage :=
            some "Error: boom [View Image](https://a/b.png) Image Generated Successfully" } :=
  parseToolResult_error_precedence
    "Error: boom [View Image](https://a/b.png) Image Generated Successfully"
    (by decide) (Or.inl (by decide))

end Suna
